import Mathlib

/-!
Shallow embedding of `src/watcher/alert_watcher.py` (the blue/green alert
watcher): field extraction by the module's regexes, the rolling status
window (a Python deque with a maximum length), the failover detector, the
error-rate detector, and the cooldown-gated Slack dispatch.  Machine
integers are modelled as `Int`/`Nat` (Python ints are unbounded), the
error ratio as a rational, and the two external effects of a processed
line — the clock `time.time()` and the outcome of the HTTP POST — as
explicit parameters.
-/

namespace AlertWatcher

/-- The whitespace class of the module's regexes, restricted to the ASCII
range that the log format uses (Python re also accepts further Unicode
whitespace, which never occurs in these logs). -/
def isPySpace (c : Char) : Bool :=
  c = ' ' || c = '\t' || c = '\n' || c = '\r' || c = Char.ofNat 11 || c = Char.ofNat 12

/-- re.search for a pattern of the shape `key(?P<v>[^\s]+)` (the regexes
RE_POOL, RE_RELEASE, RE_UPSTREAM_STATUS, RE_UPSTREAM_ADDR): at the leftmost
position where the literal key is followed by at least one non-whitespace
character, the greedy run of non-whitespace characters after the key. -/
def searchTokenAux (key : List Char) : List Char → Option (List Char)
  | [] => none
  | c :: rest =>
    if key.isPrefixOf (c :: rest) then
      let v := ((c :: rest).drop key.length).takeWhile (fun ch => !(isPySpace ch))
      if v.isEmpty then searchTokenAux key rest else some v
    else searchTokenAux key rest

def searchToken (key line : String) : Option String :=
  (searchTokenAux key.data line.data).map (fun l => String.mk l)

/-- re.search for RE_STATUS, the pattern whitespace, three digits,
whitespace: the value of the first such three-digit group. -/
def searchStatusAux : List Char → Option Nat
  | [] => none
  | c1 :: rest =>
    match rest with
    | c2 :: c3 :: c4 :: c5 :: _ =>
      if isPySpace c1 && c2.isDigit && c3.isDigit && c4.isDigit && isPySpace c5 then
        some ((c2.toNat - 48) * 100 + (c3.toNat - 48) * 10 + (c4.toNat - 48))
      else searchStatusAux rest
    | _ => none

def searchStatus (line : String) : Option Nat := searchStatusAux line.data

/-- The per-line record assembled at the top of handle_line. -/
structure LogRecord where
  pool : String
  release : String
  status : Nat
  upstreamStatus : String
  upstreamAddr : String
deriving DecidableEq

/-- Lines 72 to 84 of handle_line: every field falls back to its default
when its regex finds nothing (the int() conversion cannot fail, since the
status group is three digits).  Total: no input line raises. -/
def extractFields (line : String) : LogRecord :=
  { pool := (searchToken "pool=" line).getD "unknown"
    release := (searchToken "release=" line).getD "unknown"
    status := (searchStatus line).getD 0
    upstreamStatus := (searchToken "upstream_status=" line).getD ""
    upstreamAddr := (searchToken "upstream_addr=" line).getD "" }

/-- The module's environment-derived configuration. -/
structure Config where
  maintenanceMode : Bool
  slackWebhookUrl : Option String
  errorRateThreshold : ℚ
  windowSize : Int
  alertCooldownSec : Int
deriving DecidableEq

/-- Python truthiness of SLACK_WEBHOOK_URL in post_slack: unset (None) and
the empty string are both falsy. -/
def slackUrlMissing (cfg : Config) : Bool :=
  match cfg.slackWebhookUrl with
  | none => true
  | some s => s.isEmpty

/-- The four ways post_slack can finish, each with its own log line. -/
inductive PostResult
  | maintenance
  | noUrl
  | sent
  | failed
deriving DecidableEq

/-- post_slack, with the outcome of the HTTP POST (requests.post plus
raise_for_status) supplied as the oracle `net`. -/
def post_slack (cfg : Config) (net : Bool) : PostResult :=
  if cfg.maintenanceMode then .maintenance
  else if slackUrlMissing cfg then .noUrl
  else if net then .sent else .failed

/-- The boolean post_slack returns: True exactly on a delivered POST. -/
def PostResult.returned : PostResult → Bool
  | .sent => true
  | _ => false

/-- Whether post_slack reached requests.post at all. -/
def PostResult.transportCalled : PostResult → Bool
  | .sent => true
  | .failed => true
  | _ => false

/-- What happened to one qualifying event at the dispatcher, i.e. which
log line handle_line/post_slack produce for it. -/
inductive DispatchOutcome
  | suppressedCooldown
  | suppressedMaintenance
  | suppressedNoUrl
  | sent
  | sendFailed
deriving DecidableEq

def outcomeOfPost : PostResult → DispatchOutcome
  | .maintenance => .suppressedMaintenance
  | .noUrl => .suppressedNoUrl
  | .sent => .sent
  | .failed => .sendFailed

/-- Whether the outcome involved an actual transport (network) call. -/
def DispatchOutcome.transportCalled : DispatchOutcome → Bool
  | .sent => true
  | .sendFailed => true
  | _ => false

/-- The dispatch pattern both alert kinds share (handle_line lines 96 to
114 and 120 to 135): consult the cooldown for this kind; inside the
window, suppress with the cooldown log line; otherwise call post_slack and
advance the kind's last-alert time to `t` exactly when it returned True.
Result: the outcome and the new last-alert time for the kind. -/
def dispatch (cfg : Config) (t lastTime : Int) (net : Bool) : DispatchOutcome × Int :=
  if cfg.alertCooldownSec ≤ t - lastTime then
    let r := post_slack cfg net
    (outcomeOfPost r, if r.returned then t else lastTime)
  else
    (.suppressedCooldown, lastTime)

/-- collections.deque(maxlen=m) at module load: a negative maximum length
raises ValueError, otherwise the deque starts empty. -/
def dequeNew (maxlen : Int) : Except String (List Nat) :=
  if maxlen < 0 then .error "maxlen must be non-negative" else .ok []

/-- deque.append under maxlen=m: keep the last m appended values. -/
def dequeAppend (maxlen : Int) (w : List Nat) (s : Nat) : List Nat :=
  (w ++ [s]).drop ((w ++ [s]).length - maxlen.toNat)

/-- handle_line lines 88 to 90: append the status to rolling_statuses only
when WINDOW_SIZE is positive. -/
def pushStatus (cfg : Config) (w : List Nat) (s : Nat) : List Nat :=
  if 0 < cfg.windowSize then dequeAppend cfg.windowSize w s else w

/-- The 5xx test of check_error_rate: 500 <= s < 600. -/
def isError5xx (s : Nat) : Bool := decide (500 ≤ s) && decide (s < 600)

/-- sum(1 for s in rolling_statuses if 500 <= s < 600). -/
def countErrors (w : List Nat) : Nat := (w.filter isError5xx).length

/-- check_error_rate: None (no alert possible) below ten samples, else the
5xx percentage of the window. -/
def check_error_rate (w : List Nat) : Option ℚ :=
  if w.length < 10 then none
  else some (((countErrors w : ℚ) / (w.length : ℚ)) * 100)

/-- The module-level mutable state: last_seen_pool, last_release_by_pool,
the two last_alert_time entries, and rolling_statuses. -/
structure WatcherState where
  lastSeenPool : Option String
  lastReleaseByPool : List (String × String)
  failoverAlertTime : Int
  errorRateAlertTime : Int
  rollingStatuses : List Nat
deriving DecidableEq

/-- The state at module load (last_alert_time entries start at 0). -/
def initialState : WatcherState :=
  { lastSeenPool := none
    lastReleaseByPool := []
    failoverAlertTime := 0
    errorRateAlertTime := 0
    rollingStatuses := [] }

/-- last_release_by_pool[pool] = release.  The dict is read nowhere except
through lookup, so a cons whose lookup finds the newest binding models the
overwriting write. -/
def recordRelease (m : List (String × String)) (pool release : String) :
    List (String × String) :=
  (pool, release) :: m

/-- The two alert events, each carrying the fields of its formatted
message together with what the dispatcher did with it. -/
inductive Event
  | failover (fromPool toPool release upstreamAddr : String) (outcome : DispatchOutcome)
  | highErrorRate (ratePercent : ℚ) (windowLen : Nat) (currentPool : Option String)
      (outcome : DispatchOutcome)
deriving DecidableEq

def eventOutcome : Event → DispatchOutcome
  | .failover _ _ _ _ o => o
  | .highErrorRate _ _ _ o => o

/-- handle_line lines 93 to 116: the pool-flip detector.  With no pool
seen yet, start tracking the record's pool and record its release, no
event.  With the same pool, nothing.  With a different pool, dispatch a
failover alert (cooldown gated), then track the new pool and record its
release. -/
def failoverStep (cfg : Config) (st : WatcherState) (pool release upstreamAddr : String)
    (t : Int) (net : Bool) : WatcherState × List Event :=
  match st.lastSeenPool with
  | none =>
      ({ st with
          lastSeenPool := some pool
          lastReleaseByPool := recordRelease st.lastReleaseByPool pool release }, [])
  | some p =>
      if pool = p then (st, [])
      else
        let d := dispatch cfg t st.failoverAlertTime net
        ({ st with
            lastSeenPool := some pool
            lastReleaseByPool := recordRelease st.lastReleaseByPool pool release
            failoverAlertTime := d.2 },
          [.failover p pool release upstreamAddr d.1])

/-- handle_line lines 119 to 135: the error-rate detector.  When the ratio
is defined and at least the threshold, dispatch a high-error-rate alert
carrying the ratio, the window length and the current pool.  Result: the
new last_alert_time for the error-rate kind and the emitted events. -/
def errorRateStep (cfg : Config) (currentPool : Option String) (w : List Nat)
    (lastTime t : Int) (net : Bool) : Int × List Event :=
  match check_error_rate w with
  | none => (lastTime, [])
  | some rate =>
      if cfg.errorRateThreshold ≤ rate then
        let d := dispatch cfg t lastTime net
        (d.2, [.highErrorRate rate w.length currentPool d.1])
      else (lastTime, [])

/-- handle_line: extract the fields, push the status, run the failover
detector, then the error-rate detector (which sees the already-updated
last_seen_pool and window).  `t` is the value of time.time() during this
line; `netFailover` and `netErrorRate` are the POST outcomes for the up
to two transport calls the line can make. -/
def handle_line (cfg : Config) (st : WatcherState) (line : String) (t : Int)
    (netFailover netErrorRate : Bool) : WatcherState × List Event :=
  let r := extractFields line
  let st1 := { st with rollingStatuses := pushStatus cfg st.rollingStatuses r.status }
  let f := failoverStep cfg st1 r.pool r.release r.upstreamAddr t netFailover
  let e := errorRateStep cfg f.1.lastSeenPool f.1.rollingStatuses f.1.errorRateAlertTime t
    netErrorRate
  ({ f.1 with errorRateAlertTime := e.1 }, f.2 ++ e.2)

/-- The failover detector run over a list of records, each record given as
(pool, release, upstream_addr, time, POST outcome). -/
def runFailovers (cfg : Config) :
    WatcherState → List (String × String × String × Int × Bool) → WatcherState × List Event
  | st, [] => (st, [])
  | st, (pool, release, uaddr, t, net) :: rest =>
      let f := failoverStep cfg st pool release uaddr t net
      let g := runFailovers cfg f.1 rest
      (g.1, f.2 ++ g.2)

/-- A live configuration used for concrete runs. -/
def scenarioCfg : Config :=
  { maintenanceMode := false
    slackWebhookUrl := some "https://hooks.example/w"
    errorRateThreshold := 2
    windowSize := 20
    alertCooldownSec := 300 }

/-- scenarioCfg with maintenance mode switched on. -/
def cfgMaint : Config :=
  { maintenanceMode := true
    slackWebhookUrl := some "https://hooks.example/w"
    errorRateThreshold := 2
    windowSize := 20
    alertCooldownSec := 300 }

/-- scenarioCfg with a disabled (zero-capacity) window. -/
def cfgZero : Config :=
  { maintenanceMode := false
    slackWebhookUrl := some "https://hooks.example/w"
    errorRateThreshold := 2
    windowSize := 0
    alertCooldownSec := 300 }

/-- The 20 statuses of the spec's error-rate scenario. -/
def scenarioWindow : List Nat := List.replicate 19 200 ++ [500]

end AlertWatcher

namespace AlertWatcher

lemma not_cooldown_passed {cfg : Config} {t lastTime : Int}
    (h : t - lastTime < cfg.alertCooldownSec) : ¬ cfg.alertCooldownSec ≤ t - lastTime := by
  omega

/-- Inside the cooldown window the dispatcher suppresses with the cooldown
reason, before post_slack (and with it the maintenance and missing-URL
checks) is ever reached. -/
lemma dispatch_cooldown_active (cfg : Config) (t lastTime : Int) (net : Bool)
    (h : t - lastTime < cfg.alertCooldownSec) :
    dispatch cfg t lastTime net = (.suppressedCooldown, lastTime) := by
  unfold dispatch
  rw [if_neg (not_cooldown_passed h)]

/-- Once the cooldown gate passes, the outcome is post_slack's verdict. -/
lemma dispatch_cooldown_passed (cfg : Config) (t lastTime : Int) (net : Bool)
    (h : cfg.alertCooldownSec ≤ t - lastTime) :
    dispatch cfg t lastTime net =
      (outcomeOfPost (post_slack cfg net),
        if (post_slack cfg net).returned then t else lastTime) := by
  unfold dispatch
  rw [if_pos h]

lemma outcomeOfPost_ne_cooldown (r : PostResult) :
    outcomeOfPost r ≠ DispatchOutcome.suppressedCooldown := by
  cases r <;> simp [outcomeOfPost]

lemma dispatch_sent_iff (cfg : Config) (t lastTime : Int) (net : Bool) :
    (dispatch cfg t lastTime net).1 = DispatchOutcome.sent ↔
      cfg.alertCooldownSec ≤ t - lastTime ∧ cfg.maintenanceMode = false ∧
        slackUrlMissing cfg = false ∧ net = true := by
  unfold dispatch post_slack
  split_ifs with h1 h2 h3 h4 <;> simp_all [outcomeOfPost]

lemma dispatch_snd_eq (cfg : Config) (t lastTime : Int) (net : Bool) :
    (dispatch cfg t lastTime net).2 =
      if (dispatch cfg t lastTime net).1 = DispatchOutcome.sent then t else lastTime := by
  unfold dispatch post_slack
  split_ifs with h1 h2 h3 h4 <;>
    simp_all [outcomeOfPost, PostResult.returned]

/-- C1, as the spec states it, is false on the code: with maintenance mode
set and the cooldown window still open, handle_line suppresses with the
cooldown log line and post_slack (where the maintenance check lives) is
never consulted, so the logged reason is the cooldown one, not the
maintenance one. -/
theorem c1_gate_order_counterexample :
    cfgMaint.maintenanceMode = true ∧
    (100 : Int) - 0 < cfgMaint.alertCooldownSec ∧
    (dispatch cfgMaint 100 0 true).1 = DispatchOutcome.suppressedCooldown ∧
    DispatchOutcome.suppressedCooldown ≠ DispatchOutcome.suppressedMaintenance := by
  refine ⟨rfl, by decide, by decide, by decide⟩

/-- C1 (amended): the dispatcher's gates are checked in the order cooldown
first, then maintenance mode, then missing transport target.  An event
inside the cooldown window is suppressed with the cooldown reason even
when maintenance mode is set or the webhook URL is missing; only once the
cooldown gate passes are maintenance mode and then the missing webhook URL
consulted, in that order, and the logged suppression reason reflects this
order. -/
theorem c1_gate_order (cfg : Config) (t lastTime : Int) (net : Bool) :
    (t - lastTime < cfg.alertCooldownSec →
      (dispatch cfg t lastTime net).1 = DispatchOutcome.suppressedCooldown) ∧
    (cfg.alertCooldownSec ≤ t - lastTime → cfg.maintenanceMode = true →
      (dispatch cfg t lastTime net).1 = DispatchOutcome.suppressedMaintenance) ∧
    (cfg.alertCooldownSec ≤ t - lastTime → cfg.maintenanceMode = false →
      slackUrlMissing cfg = true →
      (dispatch cfg t lastTime net).1 = DispatchOutcome.suppressedNoUrl) ∧
    (cfg.alertCooldownSec ≤ t - lastTime → cfg.maintenanceMode = false →
      slackUrlMissing cfg = false →
      (dispatch cfg t lastTime net).1 = if net then .sent else .sendFailed) := by
  refine ⟨fun h => ?_, fun h hm => ?_, fun h hm hu => ?_, fun h hm hu => ?_⟩
  · rw [dispatch_cooldown_active cfg t lastTime net h]
  · rw [dispatch_cooldown_passed cfg t lastTime net h]
    simp [post_slack, hm, outcomeOfPost]
  · rw [dispatch_cooldown_passed cfg t lastTime net h]
    simp [post_slack, hm, hu, outcomeOfPost]
  · rw [dispatch_cooldown_passed cfg t lastTime net h]
    cases net <;> simp [post_slack, hm, hu, outcomeOfPost]

/-- C2: the cooldown timestamp of a kind advances to `now` exactly when
the transport call reports success; a delivery that fails (or any
suppression) leaves it unchanged, so a later qualifying event of the same
kind, even inside the window the failed attempt would have opened, is not
cooldown-suppressed. -/
theorem c2_cooldown_only_on_success (cfg : Config) (t lastTime : Int) (net : Bool) :
    ((dispatch cfg t lastTime net).1 = DispatchOutcome.sent ↔
      cfg.alertCooldownSec ≤ t - lastTime ∧ cfg.maintenanceMode = false ∧
        slackUrlMissing cfg = false ∧ net = true) ∧
    ((dispatch cfg t lastTime net).1 = DispatchOutcome.sent →
      (dispatch cfg t lastTime net).2 = t) ∧
    ((dispatch cfg t lastTime net).1 ≠ DispatchOutcome.sent →
      (dispatch cfg t lastTime net).2 = lastTime) ∧
    ((dispatch cfg t lastTime net).1 = DispatchOutcome.sendFailed →
      ∀ (t2 : Int) (net2 : Bool), t2 - t < cfg.alertCooldownSec →
        cfg.alertCooldownSec ≤ t2 - lastTime →
        (dispatch cfg t2 (dispatch cfg t lastTime net).2 net2).1 ≠
          DispatchOutcome.suppressedCooldown) := by
  refine ⟨dispatch_sent_iff cfg t lastTime net, fun h => ?_, fun h => ?_, fun h t2 net2 h2 h3 => ?_⟩
  · rw [dispatch_snd_eq, if_pos h]
  · rw [dispatch_snd_eq, if_neg h]
  · have hlast : (dispatch cfg t lastTime net).2 = lastTime := by
      rw [dispatch_snd_eq, if_neg (by rw [h]; decide)]
    rw [hlast, dispatch_cooldown_passed cfg t2 lastTime net2 h3]
    exact outcomeOfPost_ne_cooldown _

lemma countErrors_le (w : List Nat) : countErrors w ≤ w.length :=
  List.length_filter_le _ _

/-- C5: check_error_rate is None exactly below ten samples; otherwise it
is the 5xx count over the window length times 100, a percentage within
[0, 100]. -/
theorem c5_error_ratio (w : List Nat) :
    (check_error_rate w = none ↔ w.length < 10) ∧
    (∀ r : ℚ, check_error_rate w = some r →
      r = (countErrors w : ℚ) / (w.length : ℚ) * 100 ∧ 0 ≤ r ∧ r ≤ 100) := by
  constructor
  · unfold check_error_rate
    split_ifs with h <;> simp [h]
  · intro r hr
    unfold check_error_rate at hr
    split_ifs at hr with h
    have hval : (countErrors w : ℚ) / (w.length : ℚ) * 100 = r := Option.some.inj hr
    subst hval
    refine ⟨rfl, by positivity, ?_⟩
    have hnum : (countErrors w : ℚ) ≤ (w.length : ℚ) := by
      exact_mod_cast countErrors_le w
    have hlen : (0 : ℚ) < (w.length : ℚ) := by
      have h10 : 10 ≤ w.length := le_of_not_lt h
      exact_mod_cast Nat.lt_of_lt_of_le (by norm_num) h10
    calc (countErrors w : ℚ) / (w.length : ℚ) * 100 ≤ 1 * 100 :=
          mul_le_mul_of_nonneg_right (div_le_one_of_le₀ hnum hlen.le) (by norm_num)
      _ = 100 := by norm_num

end AlertWatcher

namespace AlertWatcher

lemma length_dequeAppend (m : Int) (w : List Nat) (s : Nat) :
    (dequeAppend m w s).length = (w.length + 1) - ((w.length + 1) - m.toNat) := by
  simp [dequeAppend]

lemma pushStatus_length_le (cfg : Config) (w : List Nat) (s : Nat)
    (hw : w.length ≤ cfg.windowSize.toNat) :
    (pushStatus cfg w s).length ≤ cfg.windowSize.toNat := by
  unfold pushStatus
  split_ifs with h
  · rw [length_dequeAppend]
    omega
  · exact hw

lemma foldl_pushStatus_length_le (cfg : Config) (xs : List Nat) :
    ∀ w : List Nat, w.length ≤ cfg.windowSize.toNat →
      (List.foldl (pushStatus cfg) w xs).length ≤ cfg.windowSize.toNat := by
  induction xs with
  | nil => intro w hw; simpa using hw
  | cons x xs ih =>
      intro w hw
      simp only [List.foldl_cons]
      exact ih _ (pushStatus_length_le cfg w x hw)

/-- C4: over any sequence of pushes the window never holds more than the
configured capacity, and a push into a full window keeps exactly the tail
of the old window followed by the new value: the oldest entry is the one
evicted (FIFO). -/
theorem c4_window_capacity_fifo (cfg : Config) (hcap : 0 ≤ cfg.windowSize) (xs : List Nat) :
    ((List.foldl (pushStatus cfg) [] xs).length : Int) ≤ cfg.windowSize ∧
    (∀ (w : List Nat) (s : Nat), (w.length : Int) = cfg.windowSize → 0 < cfg.windowSize →
      pushStatus cfg w s = w.drop 1 ++ [s]) := by
  constructor
  · have h := foldl_pushStatus_length_le cfg xs [] (by simp)
    omega
  · intro w s hlen hpos
    unfold pushStatus
    rw [if_pos hpos]
    unfold dequeAppend
    have h1 : (w ++ [s]).length - cfg.windowSize.toNat = 1 := by
      simp only [List.length_append, List.length_cons, List.length_nil]
      omega
    rw [h1]
    cases w with
    | nil => simp at hlen; omega
    | cons a w2 => simp

theorem c4_witness :
    ((List.foldl (pushStatus scenarioCfg) [] [200, 500, 200]).length : Int) ≤
        scenarioCfg.windowSize ∧
    (∀ (w : List Nat) (s : Nat),
      (w.length : Int) = scenarioCfg.windowSize → 0 < scenarioCfg.windowSize →
      pushStatus scenarioCfg w s = w.drop 1 ++ [s]) :=
  c4_window_capacity_fifo scenarioCfg (by decide) [200, 500, 200]

end AlertWatcher

namespace AlertWatcher

/-- C3: from the uninitialized detector state, records whose pools run
A, A, A, B, B, A (A and B distinct) produce exactly two failover events,
first from A to B (with the fourth record's release and upstream address),
then from B to A (with the sixth record's); the first record and every
record matching the tracked pool produce none, and after each change the
tracked pool is the new pool and its release is recorded (so the final
state tracks A, whose recorded release is the sixth record's, while B
keeps the fourth record's, the one recorded at the flip onto B). -/
theorem c3_failover_sequence (cfg : Config) (st0 : WatcherState) (A B : String)
    (h0 : st0.lastSeenPool = none) (hAB : A ≠ B)
    (r1 r2 r3 r4 r5 r6 u1 u2 u3 u4 u5 u6 : String)
    (t1 t2 t3 t4 t5 t6 : Int) (n1 n2 n3 n4 n5 n6 : Bool) :
    let res := runFailovers cfg st0
      [(A, r1, u1, t1, n1), (A, r2, u2, t2, n2), (A, r3, u3, t3, n3),
       (B, r4, u4, t4, n4), (B, r5, u5, t5, n5), (A, r6, u6, t6, n6)]
    (∃ o1 o2 : DispatchOutcome,
      res.2 = [.failover A B r4 u4 o1, .failover B A r6 u6 o2]) ∧
    res.1.lastSeenPool = some A ∧
    res.1.lastReleaseByPool.lookup A = some r6 ∧
    res.1.lastReleaseByPool.lookup B = some r4 := by
  have hBA : ¬ (B = A) := fun h => hAB h.symm
  have hAB2 : ¬ (A = B) := hAB
  have hBAb : (B == A) = false := beq_eq_false_iff_ne.mpr hBA
  refine ⟨?_, ?_, ?_, ?_⟩ <;>
    simp [runFailovers, failoverStep, recordRelease, h0, hAB2, hBA, hBAb, List.lookup]

theorem c3_witness :
    let res := runFailovers scenarioCfg initialState
      [("blue", "v1", "10.0.0.1:80", 0, true), ("blue", "v1", "10.0.0.1:80", 1, true),
       ("blue", "v1", "10.0.0.1:80", 2, true), ("green", "v2", "10.0.0.2:80", 3, true),
       ("green", "v2", "10.0.0.2:80", 4, true), ("blue", "v1", "10.0.0.1:80", 5, true)]
    (∃ o1 o2 : DispatchOutcome,
      res.2 = [.failover "blue" "green" "v2" "10.0.0.2:80" o1,
        .failover "green" "blue" "v1" "10.0.0.1:80" o2]) ∧
    res.1.lastSeenPool = some "blue" ∧
    res.1.lastReleaseByPool.lookup "blue" = some "v1" ∧
    res.1.lastReleaseByPool.lookup "green" = some "v2" :=
  c3_failover_sequence scenarioCfg initialState "blue" "green" rfl (by decide)
    "v1" "v1" "v1" "v2" "v2" "v1" "10.0.0.1:80" "10.0.0.1:80" "10.0.0.1:80"
    "10.0.0.2:80" "10.0.0.2:80" "10.0.0.1:80" 0 1 2 3 4 5 true true true true true true

end AlertWatcher

namespace AlertWatcher

/-- C6: the error-rate detector emits a HighErrorRate event exactly when
the ratio is defined and at least the threshold (inclusive, with no
edge-detection: the check depends only on the current window), carrying
the ratio and the current window length; and in the spec's scenario
(window size 20, threshold 2, nineteen 200s then one 500) the pushes
leave the window as those twenty statuses, the ratio is 5, and the event
carries ratePercent 5 and windowLen 20. -/
theorem c6_high_error_rate (cfg : Config) (pool : Option String) (w : List Nat)
    (lastTime t : Int) (net : Bool) :
    ((errorRateStep cfg pool w lastTime t net).2 ≠ [] ↔
      ∃ r : ℚ, check_error_rate w = some r ∧ cfg.errorRateThreshold ≤ r) ∧
    (∀ r : ℚ, check_error_rate w = some r → cfg.errorRateThreshold ≤ r →
      (errorRateStep cfg pool w lastTime t net).2 =
        [Event.highErrorRate r w.length pool (dispatch cfg t lastTime net).1]) ∧
    List.foldl (pushStatus scenarioCfg) [] scenarioWindow = scenarioWindow ∧
    check_error_rate scenarioWindow = some 5 ∧
    (errorRateStep scenarioCfg (some "blue") scenarioWindow 0 1000 true).2 =
      [Event.highErrorRate 5 20 (some "blue") DispatchOutcome.sent] := by
  have hcheck : check_error_rate scenarioWindow = some 5 := by
    have h1 : countErrors scenarioWindow = 1 := by decide
    have h2 : scenarioWindow.length = 20 := by decide
    unfold check_error_rate
    rw [h1, h2]
    norm_num
  refine ⟨?_, ?_, by decide, hcheck, ?_⟩
  · unfold errorRateStep
    rcases hc : check_error_rate w with _ | rate
    · simp
    · by_cases ht : cfg.errorRateThreshold ≤ rate
      · simp [ht, hc]
      · simp [ht, hc]
  · intro r hr ht
    unfold errorRateStep
    rw [hr]
    simp [ht]
  · unfold errorRateStep
    rw [hcheck]
    have hd : dispatch scenarioCfg 1000 0 true = (.sent, 1000) := by decide
    have hlen : scenarioWindow.length = 20 := by decide
    have hth : scenarioCfg.errorRateThreshold ≤ (5 : ℚ) := by
      show (2 : ℚ) ≤ 5
      norm_num
    simp [hth, hd, hlen]

lemma dispatch_maintenance_outcome (cfg : Config) (hm : cfg.maintenanceMode = true)
    (t lastTime : Int) (net : Bool) :
    (dispatch cfg t lastTime net).1 = DispatchOutcome.suppressedCooldown ∨
      (dispatch cfg t lastTime net).1 = DispatchOutcome.suppressedMaintenance := by
  unfold dispatch post_slack
  rw [hm]
  split_ifs <;> simp_all [outcomeOfPost]

lemma dispatch_maintenance_no_transport (cfg : Config) (hm : cfg.maintenanceMode = true)
    (t lastTime : Int) (net : Bool) :
    DispatchOutcome.transportCalled (dispatch cfg t lastTime net).1 = false := by
  rcases dispatch_maintenance_outcome cfg hm t lastTime net with h | h <;> rw [h] <;> rfl

lemma failoverStep_no_transport (cfg : Config) (hm : cfg.maintenanceMode = true)
    (st : WatcherState) (pool rel ua : String) (t : Int) (net : Bool) :
    List.all (failoverStep cfg st pool rel ua t net).2
      (fun e => !(DispatchOutcome.transportCalled (eventOutcome e))) = true := by
  unfold failoverStep
  rcases h : st.lastSeenPool with _ | p
  · simp
  · by_cases hp : pool = p
    · simp [hp]
    · simp [hp, eventOutcome, dispatch_maintenance_no_transport cfg hm]

lemma errorRateStep_no_transport (cfg : Config) (hm : cfg.maintenanceMode = true)
    (pool : Option String) (w : List Nat) (lastTime t : Int) (net : Bool) :
    List.all (errorRateStep cfg pool w lastTime t net).2
      (fun e => !(DispatchOutcome.transportCalled (eventOutcome e))) = true := by
  unfold errorRateStep
  rcases hc : check_error_rate w with _ | rate
  · simp
  · by_cases ht : cfg.errorRateThreshold ≤ rate
    · simp [ht, eventOutcome, dispatch_maintenance_no_transport cfg hm]
    · simp [ht]

/-- C7: with maintenance mode enabled, no processed line ever reaches the
transport: every event a line emits, of either kind and whatever the
cooldown state, has an outcome that made no network call. -/
theorem c7_maintenance_no_transport (cfg : Config) (hm : cfg.maintenanceMode = true)
    (st : WatcherState) (line : String) (t : Int) (nf ne : Bool) :
    List.all (handle_line cfg st line t nf ne).2
      (fun e => !(DispatchOutcome.transportCalled (eventOutcome e))) = true := by
  unfold handle_line
  simp only [List.all_append, Bool.and_eq_true]
  exact ⟨failoverStep_no_transport cfg hm _ _ _ _ _ _,
    errorRateStep_no_transport cfg hm _ _ _ _ _⟩

/-- scenarioCfg's state tracking the blue pool, for concrete runs. -/
def stBlue : WatcherState :=
  { lastSeenPool := some "blue"
    lastReleaseByPool := [("blue", "v1")]
    failoverAlertTime := 0
    errorRateAlertTime := 0
    rollingStatuses := [] }

theorem c7_witness :
    List.all (handle_line cfgMaint stBlue "pool=green release=v2 500 x" 1000 true true).2
      (fun e => !(DispatchOutcome.transportCalled (eventOutcome e))) = true :=
  c7_maintenance_no_transport cfgMaint rfl stBlue "pool=green release=v2 500 x" 1000 true true

end AlertWatcher

namespace AlertWatcher

/-- C8: field extraction is a total function (in this embedding by
construction, matching the code, where every regex miss and the guarded
int() fall back to a default): a line whose pool regex finds nothing gets
pool "unknown" (likewise release), a line whose status regex finds nothing
gets status 0, absent upstream fields give empty strings; and concretely,
a line whose only pool token has no value yields pool "unknown" while its
status token 599 yields status 599 (a 5xx). -/
theorem c8_extractor_defaults :
    (∀ line : String, searchToken "pool=" line = none →
      (extractFields line).pool = "unknown") ∧
    (∀ line : String, searchToken "release=" line = none →
      (extractFields line).release = "unknown") ∧
    (∀ line : String, searchStatus line = none → (extractFields line).status = 0) ∧
    (∀ line : String, searchToken "upstream_status=" line = none →
      (extractFields line).upstreamStatus = "") ∧
    (∀ line : String, searchToken "upstream_addr=" line = none →
      (extractFields line).upstreamAddr = "") ∧
    (extractFields "GET /api 599 pool=").pool = "unknown" ∧
    (extractFields "GET /api 599 pool=").status = 599 ∧
    isError5xx 599 = true := by
  refine ⟨?_, ?_, ?_, ?_, ?_, by decide, by decide, by decide⟩ <;>
    intro line h <;> simp [extractFields, h]

/-- C9, as the spec states it, is false on the code for negative
capacities: the module builds its deque at import time, and a deque with
a negative maximum length raises ValueError, so window creation does not
succeed for every capacity at most 0. -/
theorem c9_negative_capacity_counterexample :
    (-1 : Int) ≤ 0 ∧ dequeNew (-1) = Except.error "maxlen must be non-negative" := by
  exact ⟨by decide, rfl⟩

/-- C9 (amended): for capacity exactly 0 the window is disabled without
failure — creation succeeds, every push is a no-op (the guard skips the
append, so the window stays empty over any push sequence), and the error
ratio is always undefined on the empty window; for a negative capacity,
however, deque creation raises at startup. -/
theorem c9_zero_capacity_disabled (cfg : Config) (hc : cfg.windowSize = 0) :
    dequeNew cfg.windowSize = Except.ok [] ∧
    (∀ (w : List Nat) (s : Nat), pushStatus cfg w s = w) ∧
    (∀ xs : List Nat, List.foldl (pushStatus cfg) [] xs = []) ∧
    check_error_rate [] = none ∧
    (∀ m : Int, m < 0 → dequeNew m = Except.error "maxlen must be non-negative") := by
  have hp : ∀ (w : List Nat) (s : Nat), pushStatus cfg w s = w := by
    intro w s
    unfold pushStatus
    rw [hc]
    simp
  refine ⟨by rw [hc]; rfl, hp, ?_, by rfl, ?_⟩
  · intro xs
    induction xs with
    | nil => rfl
    | cons x xs ih => simp only [List.foldl_cons, hp]; exact ih
  · intro m hm
    unfold dequeNew
    rw [if_pos hm]

theorem c9_witness :
    dequeNew cfgZero.windowSize = Except.ok [] ∧
    (∀ (w : List Nat) (s : Nat), pushStatus cfgZero w s = w) ∧
    (∀ xs : List Nat, List.foldl (pushStatus cfgZero) [] xs = []) ∧
    check_error_rate [] = none ∧
    (∀ m : Int, m < 0 → dequeNew m = Except.error "maxlen must be non-negative") :=
  c9_zero_capacity_disabled cfgZero rfl

lemma handle_line_first_pool (cfg : Config) (st : WatcherState)
    (h0 : st.lastSeenPool = none) (line : String) (t : Int) (a b : Bool) :
    (handle_line cfg st line t a b).1.lastSeenPool = some (extractFields line).pool := by
  unfold handle_line failoverStep
  simp [h0]

lemma handle_line_flip (cfg : Config) (st : WatcherState) (p : String)
    (hp : st.lastSeenPool = some p) (line : String)
    (hne : ¬ (extractFields line).pool = p) (t : Int) (a b : Bool) :
    ∃ (o : DispatchOutcome) (rest : List Event),
      (handle_line cfg st line t a b).2 =
        Event.failover p (extractFields line).pool (extractFields line).release
          (extractFields line).upstreamAddr o :: rest := by
  unfold handle_line failoverStep
  simp only [hp, hne, if_false, List.cons_append, List.nil_append, List.singleton_append]
  exact ⟨_, _, rfl⟩

/-- C10: when the first processed record has no pool token, the detector
starts tracking the default pool "unknown"; a later record whose pool is
a real label (anything other than "unknown") then emits a failover event
from "unknown" to that label, although no actual pool switch occurred. -/
theorem c10_unknown_pool_failover (cfg : Config) (st0 : WatcherState)
    (h0 : st0.lastSeenPool = none) (line1 line2 : String)
    (h1 : searchToken "pool=" line1 = none)
    (hq : ¬ (extractFields line2).pool = "unknown")
    (t1 t2 : Int) (a1 b1 a2 b2 : Bool) :
    (handle_line cfg st0 line1 t1 a1 b1).1.lastSeenPool = some "unknown" ∧
    (∃ (o : DispatchOutcome) (rest : List Event),
      (handle_line cfg (handle_line cfg st0 line1 t1 a1 b1).1 line2 t2 a2 b2).2 =
        Event.failover "unknown" (extractFields line2).pool (extractFields line2).release
          (extractFields line2).upstreamAddr o :: rest) := by
  have hpool1 : (extractFields line1).pool = "unknown" := by
    simp [extractFields, h1]
  have hseen : (handle_line cfg st0 line1 t1 a1 b1).1.lastSeenPool = some "unknown" := by
    rw [handle_line_first_pool cfg st0 h0 line1 t1 a1 b1, hpool1]
  exact ⟨hseen, handle_line_flip cfg _ "unknown" hseen line2 hq t2 a2 b2⟩

theorem c10_witness :
    (handle_line scenarioCfg initialState "GET / 200 x" 0 true true).1.lastSeenPool =
      some "unknown" ∧
    (∃ (o : DispatchOutcome) (rest : List Event),
      (handle_line scenarioCfg (handle_line scenarioCfg initialState "GET / 200 x" 0 true true).1
          "pool=green release=v2 500 x" 10 true true).2 =
        Event.failover "unknown" (extractFields "pool=green release=v2 500 x").pool
          (extractFields "pool=green release=v2 500 x").release
          (extractFields "pool=green release=v2 500 x").upstreamAddr o :: rest) :=
  c10_unknown_pool_failover scenarioCfg initialState rfl "GET / 200 x"
    "pool=green release=v2 500 x" (by decide) (by decide) 0 10 true true true true

end AlertWatcher
